import Mathlib

/-!
Verification development for the prediction pipeline of cog_predict.py.

The file gives a shallow embedding of the pure orchestration logic of the
predictor: the classifier-free-guidance model wrapper (model_fn), the
embedding-fusion arithmetic (average_prompt_embed_with_aesthetic_embed built
on F.normalize), the conditioning-tensor assembly, the aesthetic-embedding
loader, the init-image path, the output-grid row-length computation and the
per-call update of the model configuration.

Modelling conventions:
- a batched tensor is a list of batch rows; a row of the denoising network's
  input/output is a list of channels, each channel a list of rational spatial
  values (all tensor arithmetic in model_fn is elementwise, so torch.cat,
  slicing and the guidance formula act structurally on these lists);
- floating-point arithmetic of the fusion path is modelled over the reals
  (torch.nn.functional.normalize keeps its eps clamp, default 1e-12);
- the pretrained networks (denoiser, BERT, CLIP, VAE) are opaque external
  collaborators and enter as function parameters;
- Python's int() truncation toward zero on a nonnegative float is the floor.
-/

namespace CogPredict

/-- Python's int() applied to a rational: truncation toward zero. -/
def pyInt (q : ℚ) : ℤ := if 0 ≤ q then ⌊q⌋ else ⌈q⌉

/-! ### Output grid layout (save_sample, lines 277-289) -/

/-- Lines 277-279: images_per_row starts as batch_size and is replaced by
batch_size // 2 when batch_size >= 6. -/
def images_per_row (batch_size : ℕ) : ℕ :=
  if 6 ≤ batch_size then batch_size / 2 else batch_size

/-! ### Aesthetic embedding loader (lines 44-60) -/

/-- The ratings accepted by the assertion in load_aesthetic_vit_l_14_embed
(lines 47-57). -/
def validRatings : List ℕ := [1, 2, 3, 4, 5, 6, 7, 8, 9]

/-- Lines 44-60: the loader asserts the rating is in 1..9 and then loads the
stored embedding for that rating.  Reading the .npy file is opaque and enters
as the parameter loadRating; a failed assertion is an error (AssertionError),
modelled with Except. -/
def load_aesthetic_vit_l_14_embed (loadRating : ℕ → List ℝ) (rating : ℕ) :
    Except String (List ℝ) :=
  if rating ∈ validRatings then Except.ok (loadRating rating)
  else Except.error "rating must be in [1, 2, 3, 4, 5, 6, 7, 8, 9]"

/-! ### Embedding fusion (lines 63-70) -/

/-- L2 norm of a vector, the p = 2 norm used by F.normalize. -/
noncomputable def l2norm (v : List ℝ) : ℝ :=
  Real.sqrt ((v.map (fun x => x ^ 2)).sum)

/-- Default eps clamp of torch.nn.functional.normalize (eps = 1e-12). -/
noncomputable def fnormalizeEps : ℝ := 1 / 10 ^ 12

/-- One row of F.normalize(m) with the defaults p = 2, dim = 1, eps = 1e-12:
the row divided by max(norm, eps). -/
noncomputable def normalizeRow (v : List ℝ) : List ℝ :=
  v.map (fun x => x / max (l2norm v) fnormalizeEps)

/-- One batch row of the line-69 interpolation
prompt_embed * (1 - aesthetic_weight) + aesthetic_embed * aesthetic_weight;
the single aesthetic vector broadcasts across the prompt batch rows. -/
def lerpRow (aesthetic_weight : ℝ) (promptRow aesthetic_embed : List ℝ) :
    List ℝ :=
  List.zipWith (fun x y => x * (1 - aesthetic_weight) + y * aesthetic_weight)
    promptRow aesthetic_embed

/-- Lines 63-70: F.normalize applied (rowwise, dim = 1) to the interpolation
of the batched prompt embedding with the broadcast aesthetic embedding. -/
noncomputable def average_prompt_embed_with_aesthetic_embed
    (prompt_embed : List (List ℝ)) (aesthetic_embed : List ℝ)
    (aesthetic_weight : ℝ) : List (List ℝ) :=
  prompt_embed.map
    (fun row => normalizeRow (lerpRow aesthetic_weight row aesthetic_embed))

/-- Lines 246-251 of predict: the aesthetic embedding for the requested
rating is always loaded and always fused into the prompt CLIP rows; a loader
failure propagates (there is no branch that skips fusion). -/
noncomputable def predictAestheticFusion (loadRating : ℕ → List ℝ)
    (text_emb_clip : List (List ℝ)) (aesthetic_rating : ℕ)
    (aesthetic_weight : ℝ) : Except String (List (List ℝ)) :=
  (load_aesthetic_vit_l_14_embed loadRating aesthetic_rating).map
    (fun a =>
      average_prompt_embed_with_aesthetic_embed text_emb_clip a
        aesthetic_weight)

/-! ### Conditioning assembly (lines 226-264) -/

/-- Encoding a replicated prompt list, bert.encode([s] * batch_size) or the
CLIP tokenize/encode_text chain on [s] * batch_size: the opaque per-string
encoder produces one row per input string. -/
def encodeBatch {α : Type} (encode : String → α) (s : String)
    (batch_size : ℕ) : List α :=
  (List.replicate batch_size s).map encode

/-- kwargs context (line 259): torch.cat([text_emb, text_blank], dim=0). -/
def contextTensor {α : Type} (bertEncode : String → α)
    (prompt negative : String) (batch_size : ℕ) : List α :=
  encodeBatch bertEncode prompt batch_size
    ++ encodeBatch bertEncode negative batch_size

/-- kwargs clip_embed (lines 240-251, 260): the prompt CLIP rows are fused
with the aesthetic embedding, then concatenated with the negative CLIP rows
along the batch axis. -/
noncomputable def clipEmbedTensor (clipEncode : String → List ℝ)
    (aesthetic_embed : List ℝ) (aesthetic_weight : ℝ)
    (prompt negative : String) (batch_size : ℕ) : List (List ℝ) :=
  average_prompt_embed_with_aesthetic_embed
      (encodeBatch clipEncode prompt batch_size) aesthetic_embed
      aesthetic_weight
    ++ encodeBatch clipEncode negative batch_size

/-- image_embed (lines 254-256): zeros of shape
(batch_size * 2, 4, height // 8, width // 8). -/
def image_embed (batch_size height width : ℕ) :
    List (List (List (List ℚ))) :=
  List.replicate (batch_size * 2)
    (List.replicate 4
      (List.replicate (height / 8) (List.replicate (width / 8) (0 : ℚ))))

/-! ### Classifier-free guidance wrapper model_fn (lines 267-275) -/

/-- One channel of a batch row: its flattened spatial values. -/
abbrev Chan := List ℚ

/-- One batch row of a 4d tensor: its list of channels. -/
abbrev Row := List Chan

/-- A batched tensor: its list of batch rows. -/
abbrev Tensor := List Row

/-- The elementwise guidance formula of line 273,
uncond_eps + guidance_scale * (cond_eps - uncond_eps), on one channel. -/
def guidedChan (guidance_scale : ℚ) (cond uncond : Chan) : Chan :=
  List.zipWith (fun c u => u + guidance_scale * (c - u)) cond uncond

/-- Line 273 on one batch row: channelwise guidance. -/
def guidedRow (guidance_scale : ℚ) (cond uncond : Row) : Row :=
  List.zipWith (guidedChan guidance_scale) cond uncond

/-- Line 273 on whole tensors: batchwise guidance, half_eps. -/
def guidedEps (guidance_scale : ℚ) (cond uncond : Tensor) : Tensor :=
  List.zipWith (guidedRow guidance_scale) cond uncond

/-- Line 268: half = x_t[: len(x_t) // 2]. -/
def cfg_half (x_t : Tensor) : Tensor := x_t.take (x_t.length / 2)

/-- Lines 269-270: model_out = model(torch.cat([half, half], dim=0), ts,
**kwargs).  The denoising network (with its fixed timestep and conditioning
kwargs) is the opaque parameter net. -/
def cfg_model_out (net : Tensor → Tensor) (x_t : Tensor) : Tensor :=
  net (cfg_half x_t ++ cfg_half x_t)

/-- Line 271: eps = model_out[:, :3]. -/
def cfg_eps (net : Tensor → Tensor) (x_t : Tensor) : Tensor :=
  (cfg_model_out net x_t).map (fun r => r.take 3)

/-- Line 271: rest = model_out[:, 3:]. -/
def cfg_rest (net : Tensor → Tensor) (x_t : Tensor) : Tensor :=
  (cfg_model_out net x_t).map (fun r => r.drop 3)

/-- Line 272: cond_eps, the first chunk of
torch.split(eps, len(eps) // 2, dim=0). -/
def cfg_cond_eps (net : Tensor → Tensor) (x_t : Tensor) : Tensor :=
  (cfg_eps net x_t).take ((cfg_eps net x_t).length / 2)

/-- Line 272: uncond_eps, the second chunk of
torch.split(eps, len(eps) // 2, dim=0). -/
def cfg_uncond_eps (net : Tensor → Tensor) (x_t : Tensor) : Tensor :=
  ((cfg_eps net x_t).drop ((cfg_eps net x_t).length / 2)).take
    ((cfg_eps net x_t).length / 2)

/-- Line 273: half_eps = uncond_eps + guidance_scale * (cond_eps -
uncond_eps). -/
def cfg_half_eps (net : Tensor → Tensor) (guidance_scale : ℚ)
    (x_t : Tensor) : Tensor :=
  guidedEps guidance_scale (cfg_cond_eps net x_t) (cfg_uncond_eps net x_t)

/-- Lines 267-275: the classifier-free-guidance wrapper.  Line 274
re-duplicates half_eps along the batch axis and line 275 re-concatenates it
with rest along the channel axis. -/
def model_fn (net : Tensor → Tensor) (guidance_scale : ℚ)
    (x_t : Tensor) : Tensor :=
  List.zipWith (fun e r => e ++ r)
    (cfg_half_eps net guidance_scale x_t ++ cfg_half_eps net guidance_scale x_t)
    (cfg_rest net x_t)

/-- Shape contract for the opaque denoising network's output: every batch
row has exactly c channels and every channel s spatial values. -/
def sameShape (t : Tensor) (c s : ℕ) : Prop :=
  ∀ r ∈ t, r.length = c ∧ ∀ ch ∈ r, ch.length = s

/-! ### Init-image path (lines 291-313) -/

/-- Values produced by the init-image block: the optional initial latent
batch, the effective skip fraction and the skip-step count. -/
structure InitResult (β : Type) where
  init : Option (List β)
  init_skip_fraction : ℚ
  init_skip_timesteps : ℤ

/-- Lines 291-313.  encodeLatent abstracts the opaque image pipeline
(open/resize/to_tensor, ldm.encode, the 0.18215 scale); the latent h is
replicated batch_size * 2 times by torch.cat(batch_size * 2 * [h], dim=0).
timestep_respacing was set to str(steps) at line 215, so
int(model_config["timestep_respacing"]) at line 306 recovers steps, and
Python's int() on the nonnegative product truncates (pyInt). -/
def initialization {α β : Type} (encodeLatent : α → β)
    (init_image : Option α) (init_skip_fraction : ℚ)
    (batch_size steps : ℕ) : InitResult β :=
  match init_image with
  | some img =>
    let f := if init_skip_fraction = 0 then (1 : ℚ) / 2 else init_skip_fraction
    let h := encodeLatent img
    { init := some (List.replicate (batch_size * 2) h)
      init_skip_fraction := f
      init_skip_timesteps := pyInt ((steps : ℚ) * f) }
  | none =>
    { init := none
      init_skip_fraction := 0
      init_skip_timesteps := 0 }

/-! ### Model configuration (load_finetune lines 73-105, predict lines
214-224) -/

/-- The model configuration dictionary: the keys written by load_finetune's
model_params (lines 79-101) together with the two default keys read at lines
220-221.  Keys of model_and_diffusion_defaults never touched by this file
are omitted; they are never written after setup. -/
structure ModelConfig where
  attention_resolutions : String
  class_cond : Bool
  diffusion_steps : ℕ
  rescale_timesteps : Bool
  timestep_respacing : String
  image_size : ℕ
  learn_sigma : Bool
  noise_schedule : String
  num_channels : ℕ
  num_heads : ℕ
  num_res_blocks : ℕ
  resblock_updown : Bool
  use_fp16 : Bool
  use_scale_shift_norm : Bool
  clip_embed_dim : Option ℕ
  image_condition : Bool
  super_res_condition : Bool
  use_kl : Bool
  predict_xstart : Bool
deriving DecidableEq

/-- Lines 79-102: the configuration produced by load_finetune at setup.
hasClipProj, imageCond and superRes reflect the checkpoint-dependent tests
on model_state_dict; use_kl and predict_xstart come from
model_and_diffusion_defaults and are untouched by model_params. -/
def load_finetune_config (hasClipProj imageCond superRes use_kl
    predict_xstart : Bool) : ModelConfig where
  attention_resolutions := "32,16,8"
  class_cond := false
  diffusion_steps := 1000
  rescale_timesteps := true
  timestep_respacing := "27"
  image_size := 32
  learn_sigma := false
  noise_schedule := "linear"
  num_channels := 320
  num_heads := 8
  num_res_blocks := 2
  resblock_updown := false
  use_fp16 := true
  use_scale_shift_norm := false
  clip_embed_dim := if hasClipProj then some 768 else none
  image_condition := imageCond
  super_res_condition := superRes
  use_kl := use_kl
  predict_xstart := predict_xstart

/-- Line 215: predict overwrites
self.model_config["timestep_respacing"] = str(steps) before building the
per-call diffusion object. -/
def predict_update_config (cfg : ModelConfig) (steps : ℕ) : ModelConfig :=
  { cfg with timestep_respacing := toString steps }

/-- The shape contract is checkable on concrete tensors. -/
instance decSameShape (t : Tensor) (c s : ℕ) : Decidable (sameShape t c s) :=
  inferInstanceAs (Decidable (∀ r ∈ t, r.length = c ∧ ∀ ch ∈ r, ch.length = s))

/-- A concrete doubled batch (2 rows, 4 channels, 1 spatial value each) for
evaluating the guidance wrapper on an explicit input. -/
def sampleBatch2 : Tensor := [[[1], [2], [3], [4]], [[5], [6], [7], [8]]]

/-- A second concrete doubled batch agreeing with sampleBatch2 on its first
half but not on its second half. -/
def sampleBatch2' : Tensor := [[[1], [2], [3], [4]], [[9], [9], [9], [9]]]

/-! ### Generic list lemmas -/

theorem zipWith_eq_left_of_mem {α β : Type} (f : α → β → α) :
    ∀ (l₁ : List α) (l₂ : List β), (∀ a ∈ l₁, ∀ b, f a b = a) →
      l₁.length ≤ l₂.length → List.zipWith f l₁ l₂ = l₁ := by
  intro l₁
  induction l₁ with
  | nil => intro l₂ _ _; simp
  | cons a l₁ ih =>
    intro l₂ h hl
    cases l₂ with
    | nil => simp at hl
    | cons b l₂ =>
      rw [List.zipWith_cons_cons, h a (by simp) b]
      exact congrArg (a :: ·)
        (ih l₂ (fun x hx b' => h x (by simp [hx]) b') (by simpa using hl))

theorem zipWith_eq_right_of_mem {α β : Type} (f : α → β → β) :
    ∀ (l₁ : List α) (l₂ : List β), (∀ b ∈ l₂, ∀ a, f a b = b) →
      l₂.length ≤ l₁.length → List.zipWith f l₁ l₂ = l₂ := by
  intro l₁
  induction l₁ with
  | nil =>
    intro l₂ _ hl
    rw [List.length_nil, Nat.le_zero, List.length_eq_zero] at hl
    rw [hl]
    rfl
  | cons a l₁ ih =>
    intro l₂ h hl
    cases l₂ with
    | nil => simp
    | cons b l₂ =>
      rw [List.zipWith_cons_cons, h b (by simp) a]
      exact congrArg (b :: ·)
        (ih l₂ (fun x hx a' => h x (by simp [hx]) a') (by simpa using hl))

/-! ### Shape lemmas for the guidance formula -/

theorem guidedChan_one (cond uncond : Chan)
    (h : cond.length ≤ uncond.length) : guidedChan 1 cond uncond = cond :=
  zipWith_eq_left_of_mem _ cond uncond (fun a _ b => by ring) h

theorem guidedChan_zero (cond uncond : Chan)
    (h : uncond.length ≤ cond.length) : guidedChan 0 cond uncond = uncond :=
  zipWith_eq_right_of_mem _ cond uncond (fun b _ a => by ring) h

theorem guidedRow_one (s : ℕ) :
    ∀ (cr ur : Row), cr.length ≤ ur.length →
      (∀ ch ∈ cr, ch.length = s) → (∀ ch ∈ ur, ch.length = s) →
      guidedRow 1 cr ur = cr := by
  intro cr
  induction cr with
  | nil => intro ur _ _ _; rfl
  | cons c cr ih =>
    intro ur hl hc hu
    cases ur with
    | nil => simp at hl
    | cons u ur =>
      show guidedChan 1 c u :: List.zipWith (guidedChan 1) cr ur = c :: cr
      rw [guidedChan_one c u (by rw [hc c (by simp), hu u (by simp)])]
      exact congrArg (c :: ·)
        (ih ur (by simpa using hl) (fun x hx => hc x (by simp [hx]))
          (fun x hx => hu x (by simp [hx])))

theorem guidedRow_zero (s : ℕ) :
    ∀ (cr ur : Row), ur.length ≤ cr.length →
      (∀ ch ∈ cr, ch.length = s) → (∀ ch ∈ ur, ch.length = s) →
      guidedRow 0 cr ur = ur := by
  intro cr
  induction cr with
  | nil =>
    intro ur hl _ _
    rw [List.length_nil, Nat.le_zero, List.length_eq_zero] at hl
    rw [hl]
    rfl
  | cons c cr ih =>
    intro ur hl hc hu
    cases ur with
    | nil => rfl
    | cons u ur =>
      show guidedChan 0 c u :: List.zipWith (guidedChan 0) cr ur = u :: ur
      rw [guidedChan_zero c u (by rw [hc c (by simp), hu u (by simp)])]
      exact congrArg (u :: ·)
        (ih ur (by simpa using hl) (fun x hx => hc x (by simp [hx]))
          (fun x hx => hu x (by simp [hx])))

theorem guidedEps_one (c s : ℕ) :
    ∀ (ce ue : Tensor), ce.length ≤ ue.length →
      sameShape ce c s → sameShape ue c s → guidedEps 1 ce ue = ce := by
  intro ce
  induction ce with
  | nil => intro ue _ _ _; rfl
  | cons r ce ih =>
    intro ue hl hce hue
    cases ue with
    | nil => simp at hl
    | cons u ue =>
      show guidedRow 1 r u :: List.zipWith (guidedRow 1) ce ue = r :: ce
      obtain ⟨hrlen, hrch⟩ := hce r (by simp)
      obtain ⟨hulen, huch⟩ := hue u (by simp)
      rw [guidedRow_one s r u (by rw [hrlen, hulen]) hrch huch]
      exact congrArg (r :: ·)
        (ih ue (by simpa using hl) (fun x hx => hce x (by simp [hx]))
          (fun x hx => hue x (by simp [hx])))

theorem guidedEps_zero (c s : ℕ) :
    ∀ (ce ue : Tensor), ue.length ≤ ce.length →
      sameShape ce c s → sameShape ue c s → guidedEps 0 ce ue = ue := by
  intro ce
  induction ce with
  | nil =>
    intro ue hl _ _
    rw [List.length_nil, Nat.le_zero, List.length_eq_zero] at hl
    rw [hl]
    rfl
  | cons r ce ih =>
    intro ue hl hce hue
    cases ue with
    | nil => rfl
    | cons u ue =>
      show guidedRow 0 r u :: List.zipWith (guidedRow 0) ce ue = u :: ue
      obtain ⟨hrlen, hrch⟩ := hce r (by simp)
      obtain ⟨hulen, huch⟩ := hue u (by simp)
      rw [guidedRow_zero s r u (by rw [hrlen, hulen]) hrch huch]
      exact congrArg (u :: ·)
        (ih ue (by simpa using hl) (fun x hx => hce x (by simp [hx]))
          (fun x hx => hue x (by simp [hx])))

theorem guidedEps_row_length (g : ℚ) (c : ℕ) :
    ∀ (ce ue : Tensor), (∀ r ∈ ce, r.length = c) →
      (∀ r ∈ ue, r.length = c) →
      ∀ e ∈ guidedEps g ce ue, e.length = c := by
  intro ce
  induction ce with
  | nil => intro ue _ _ e he; simp [guidedEps] at he
  | cons r ce ih =>
    intro ue hce hue e he
    cases ue with
    | nil => simp [guidedEps] at he
    | cons u ue =>
      rw [show guidedEps g (r :: ce) (u :: ue)
            = guidedRow g r u :: guidedEps g ce ue from rfl,
        List.mem_cons] at he
      rcases he with rfl | he
      · rw [guidedRow, List.length_zipWith, hce r (by simp), hue u (by simp)]
        omega
      · exact ih ue (fun x hx => hce x (by simp [hx]))
          (fun x hx => hue x (by simp [hx])) e he

theorem sameShape_of_subset {t t' : Tensor} {c s : ℕ} (hsub : t' ⊆ t)
    (h : sameShape t c s) : sameShape t' c s :=
  fun r hr => h r (hsub hr)

/-! ### Structural facts about the intermediate tensors of model_fn -/

theorem cfg_half_eq (x : Tensor) (n : ℕ) (hx : x.length = 2 * n) :
    cfg_half x = x.take n := by
  rw [cfg_half, hx]
  congr 1
  omega

theorem cfg_model_out_length (net : Tensor → Tensor) (x : Tensor) (n : ℕ)
    (hnet : ∀ t, (net t).length = t.length) (hx : x.length = 2 * n) :
    (cfg_model_out net x).length = 2 * n := by
  rw [cfg_model_out, hnet, List.length_append, cfg_half_eq x n hx,
    List.length_take, hx]
  omega

theorem cfg_eps_length (net : Tensor → Tensor) (x : Tensor) (n : ℕ)
    (hnet : ∀ t, (net t).length = t.length) (hx : x.length = 2 * n) :
    (cfg_eps net x).length = 2 * n := by
  rw [cfg_eps, List.length_map]
  exact cfg_model_out_length net x n hnet hx

theorem cfg_cond_eps_eq (net : Tensor → Tensor) (x : Tensor) (n : ℕ)
    (hnet : ∀ t, (net t).length = t.length) (hx : x.length = 2 * n) :
    cfg_cond_eps net x = (cfg_eps net x).take n := by
  rw [cfg_cond_eps, cfg_eps_length net x n hnet hx]
  congr 1
  omega

theorem cfg_cond_eps_length (net : Tensor → Tensor) (x : Tensor) (n : ℕ)
    (hnet : ∀ t, (net t).length = t.length) (hx : x.length = 2 * n) :
    (cfg_cond_eps net x).length = n := by
  rw [cfg_cond_eps_eq net x n hnet hx, List.length_take,
    cfg_eps_length net x n hnet hx]
  omega

theorem cfg_uncond_eps_eq (net : Tensor → Tensor) (x : Tensor) (n : ℕ)
    (hnet : ∀ t, (net t).length = t.length) (hx : x.length = 2 * n) :
    cfg_uncond_eps net x = (cfg_eps net x).drop n := by
  rw [cfg_uncond_eps, cfg_eps_length net x n hnet hx]
  have h2 : 2 * n / 2 = n := by omega
  rw [h2]
  exact List.take_of_length_le
    (by rw [List.length_drop, cfg_eps_length net x n hnet hx]; omega)

theorem cfg_uncond_eps_length (net : Tensor → Tensor) (x : Tensor) (n : ℕ)
    (hnet : ∀ t, (net t).length = t.length) (hx : x.length = 2 * n) :
    (cfg_uncond_eps net x).length = n := by
  rw [cfg_uncond_eps_eq net x n hnet hx, List.length_drop,
    cfg_eps_length net x n hnet hx]
  omega

theorem sameShape_cfg_eps (net : Tensor → Tensor) (x : Tensor) (c s : ℕ)
    (hshape : sameShape (cfg_model_out net x) c s) (hc : 3 ≤ c) :
    sameShape (cfg_eps net x) 3 s := by
  intro r hr
  rw [cfg_eps] at hr
  obtain ⟨r₀, hr₀, rfl⟩ := List.mem_map.1 hr
  obtain ⟨hlen, hch⟩ := hshape r₀ hr₀
  refine ⟨?_, ?_⟩
  · rw [List.length_take, hlen]
    omega
  · intro ch hch'
    exact hch ch (List.mem_of_mem_take hch')

theorem sameShape_cfg_cond (net : Tensor → Tensor) (x : Tensor) (c s : ℕ)
    (hshape : sameShape (cfg_model_out net x) c s) (hc : 3 ≤ c) :
    sameShape (cfg_cond_eps net x) 3 s :=
  sameShape_of_subset (List.take_subset _ _)
    (sameShape_cfg_eps net x c s hshape hc)

theorem sameShape_cfg_uncond (net : Tensor → Tensor) (x : Tensor) (c s : ℕ)
    (hshape : sameShape (cfg_model_out net x) c s) (hc : 3 ≤ c) :
    sameShape (cfg_uncond_eps net x) 3 s :=
  sameShape_of_subset
    (fun _ hr => List.drop_subset _ _ (List.take_subset _ _ hr))
    (sameShape_cfg_eps net x c s hshape hc)

theorem cfg_half_eps_length (net : Tensor → Tensor) (g : ℚ) (x : Tensor)
    (n : ℕ) (hnet : ∀ t, (net t).length = t.length)
    (hx : x.length = 2 * n) : (cfg_half_eps net g x).length = n := by
  rw [cfg_half_eps, guidedEps, List.length_zipWith,
    cfg_cond_eps_length net x n hnet hx, cfg_uncond_eps_length net x n hnet hx]
  omega

theorem cfg_half_eps_rows (net : Tensor → Tensor) (g : ℚ) (x : Tensor)
    (c s : ℕ) (hshape : sameShape (cfg_model_out net x) c s) (hc : 3 ≤ c) :
    ∀ e ∈ cfg_half_eps net g x, e.length = 3 := by
  refine guidedEps_row_length g 3 _ _ ?_ ?_
  · intro r hr
    exact (sameShape_cfg_cond net x c s hshape hc r hr).1
  · intro r hr
    exact (sameShape_cfg_uncond net x c s hshape hc r hr).1

theorem cfg_rest_length (net : Tensor → Tensor) (x : Tensor) (n : ℕ)
    (hnet : ∀ t, (net t).length = t.length) (hx : x.length = 2 * n) :
    (cfg_rest net x).length = 2 * n := by
  rw [cfg_rest, List.length_map]
  exact cfg_model_out_length net x n hnet hx

/-- The first three channels of the value model_fn returns are exactly the
duplicated guided estimate half_eps: the appended rest channels do not leak
into the eps slice. -/
theorem model_fn_take3 (net : Tensor → Tensor) (g : ℚ) (x : Tensor)
    (n c s : ℕ) (hnet : ∀ t, (net t).length = t.length)
    (hx : x.length = 2 * n)
    (hshape : sameShape (cfg_model_out net x) c s) (hc : 3 ≤ c) :
    (model_fn net g x).map (fun r => r.take 3)
      = cfg_half_eps net g x ++ cfg_half_eps net g x := by
  rw [model_fn, List.map_zipWith]
  refine zipWith_eq_left_of_mem _ _ _ ?_ ?_
  · intro e he r
    have h3 : e.length = 3 := by
      rcases List.mem_append.1 he with h | h
      · exact cfg_half_eps_rows net g x c s hshape hc e h
      · exact cfg_half_eps_rows net g x c s hshape hc e h
    show (e ++ r).take 3 = e
    rw [← h3]
    exact List.take_left e r
  · rw [List.length_append, cfg_half_eps_length net g x n hnet hx,
      cfg_rest_length net x n hnet hx]
    omega

/-- With guidance_scale = 1 the guided estimate collapses to the conditional
eps half. -/
theorem cfg_half_eps_one (net : Tensor → Tensor) (x : Tensor) (n c s : ℕ)
    (hnet : ∀ t, (net t).length = t.length) (hx : x.length = 2 * n)
    (hshape : sameShape (cfg_model_out net x) c s) (hc : 3 ≤ c) :
    cfg_half_eps net 1 x = cfg_cond_eps net x := by
  rw [cfg_half_eps]
  exact guidedEps_one 3 s _ _
    (by rw [cfg_cond_eps_length net x n hnet hx,
      cfg_uncond_eps_length net x n hnet hx])
    (sameShape_cfg_cond net x c s hshape hc)
    (sameShape_cfg_uncond net x c s hshape hc)

/-- With guidance_scale = 0 the guided estimate collapses to the
unconditional eps half. -/
theorem cfg_half_eps_zero (net : Tensor → Tensor) (x : Tensor) (n c s : ℕ)
    (hnet : ∀ t, (net t).length = t.length) (hx : x.length = 2 * n)
    (hshape : sameShape (cfg_model_out net x) c s) (hc : 3 ≤ c) :
    cfg_half_eps net 0 x = cfg_uncond_eps net x := by
  rw [cfg_half_eps]
  exact guidedEps_zero 3 s _ _
    (by rw [cfg_cond_eps_length net x n hnet hx,
      cfg_uncond_eps_length net x n hnet hx])
    (sameShape_cfg_cond net x c s hshape hc)
    (sameShape_cfg_uncond net x c s hshape hc)

/-- model_fn reads its input only through cfg_half. -/
theorem model_fn_congr_half (net : Tensor → Tensor) (g : ℚ) (x y : Tensor)
    (h : cfg_half x = cfg_half y) : model_fn net g x = model_fn net g y := by
  simp only [model_fn, cfg_half_eps, cfg_cond_eps, cfg_uncond_eps, cfg_eps,
    cfg_rest, cfg_model_out, h]

/-- C1: for an even-batch input (length 2 * n) and a batch-preserving
denoising network whose output rows all carry c >= 3 channels of s spatial
values, the first three channels of model_fn's output are exactly the
duplicated guided estimate uncond_eps + guidance_scale * (cond_eps -
uncond_eps); with guidance_scale = 1 they are the duplicated conditional
eps unmodified, and with guidance_scale = 0 the duplicated unconditional
eps. -/
theorem model_fn_guidance_formula (net : Tensor → Tensor) (g : ℚ)
    (x_t : Tensor) (n c s : ℕ) (hx : x_t.length = 2 * n)
    (hnet : ∀ t, (net t).length = t.length)
    (hshape : sameShape (cfg_model_out net x_t) c s) (hc : 3 ≤ c) :
    (model_fn net g x_t).map (fun r => r.take 3)
      = guidedEps g (cfg_cond_eps net x_t) (cfg_uncond_eps net x_t)
        ++ guidedEps g (cfg_cond_eps net x_t) (cfg_uncond_eps net x_t)
    ∧ (model_fn net 1 x_t).map (fun r => r.take 3)
      = cfg_cond_eps net x_t ++ cfg_cond_eps net x_t
    ∧ (model_fn net 0 x_t).map (fun r => r.take 3)
      = cfg_uncond_eps net x_t ++ cfg_uncond_eps net x_t := by
  refine ⟨model_fn_take3 net g x_t n c s hnet hx hshape hc, ?_, ?_⟩
  · rw [model_fn_take3 net 1 x_t n c s hnet hx hshape hc,
      cfg_half_eps_one net x_t n c s hnet hx hshape hc]
  · rw [model_fn_take3 net 0 x_t n c s hnet hx hshape hc,
      cfg_half_eps_zero net x_t n c s hnet hx hshape hc]

/-- Witness for C1 at the identity network, guidance_scale = 7 and the
concrete doubled batch sampleBatch2. -/
theorem model_fn_guidance_formula_witness :
    sampleBatch2.length = 2 * 1
    ∧ (∀ t : Tensor, ((fun t => t) t : Tensor).length = t.length)
    ∧ sameShape (cfg_model_out (fun t => t) sampleBatch2) 4 1
    ∧ 3 ≤ 4
    ∧ ((model_fn (fun t => t) 7 sampleBatch2).map (fun r => r.take 3)
        = guidedEps 7 (cfg_cond_eps (fun t => t) sampleBatch2)
            (cfg_uncond_eps (fun t => t) sampleBatch2)
          ++ guidedEps 7 (cfg_cond_eps (fun t => t) sampleBatch2)
            (cfg_uncond_eps (fun t => t) sampleBatch2)
      ∧ (model_fn (fun t => t) 1 sampleBatch2).map (fun r => r.take 3)
        = cfg_cond_eps (fun t => t) sampleBatch2
          ++ cfg_cond_eps (fun t => t) sampleBatch2
      ∧ (model_fn (fun t => t) 0 sampleBatch2).map (fun r => r.take 3)
        = cfg_uncond_eps (fun t => t) sampleBatch2
          ++ cfg_uncond_eps (fun t => t) sampleBatch2) :=
  ⟨rfl, fun _ => rfl, by decide, by decide,
    model_fn_guidance_formula (fun t => t) 7 sampleBatch2 1 4 1 rfl
      (fun _ => rfl) (by decide) (by decide)⟩

/-- C10: under the same even-batch and network shape contract, model_fn
depends only on the first half of the input batch (inputs of equal length
agreeing on the first half give identical outputs), returns a tensor whose
batch size equals the input's, and the first-three-channel slices of its
two batch halves are identical. -/
theorem model_fn_half_dependence (net : Tensor → Tensor) (g : ℚ)
    (x_t y_t : Tensor) (n c s : ℕ) (hx : x_t.length = 2 * n)
    (hy : y_t.length = 2 * n) (hagree : x_t.take n = y_t.take n)
    (hnet : ∀ t, (net t).length = t.length)
    (hshape : sameShape (cfg_model_out net x_t) c s) (hc : 3 ≤ c) :
    model_fn net g x_t = model_fn net g y_t
    ∧ (model_fn net g x_t).length = x_t.length
    ∧ ((model_fn net g x_t).map (fun r => r.take 3)).take n
      = ((model_fn net g x_t).map (fun r => r.take 3)).drop n := by
  refine ⟨?_, ?_, ?_⟩
  · exact model_fn_congr_half net g x_t y_t
      (by rw [cfg_half_eq x_t n hx, cfg_half_eq y_t n hy, hagree])
  · rw [model_fn, List.length_zipWith, List.length_append,
      cfg_half_eps_length net g x_t n hnet hx,
      cfg_rest_length net x_t n hnet hx, hx]
    omega
  · rw [model_fn_take3 net g x_t n c s hnet hx hshape hc,
      List.take_left' (cfg_half_eps_length net g x_t n hnet hx),
      List.drop_left' (cfg_half_eps_length net g x_t n hnet hx)]

/-- Witness for C10 at the identity network, guidance_scale = 7 and the
concrete doubled batches sampleBatch2 and sampleBatch2', which agree on
their first halves only. -/
theorem model_fn_half_dependence_witness :
    sampleBatch2.length = 2 * 1
    ∧ sampleBatch2'.length = 2 * 1
    ∧ sampleBatch2.take 1 = sampleBatch2'.take 1
    ∧ (∀ t : Tensor, ((fun t => t) t : Tensor).length = t.length)
    ∧ sameShape (cfg_model_out (fun t => t) sampleBatch2) 4 1
    ∧ 3 ≤ 4
    ∧ (model_fn (fun t => t) 7 sampleBatch2
        = model_fn (fun t => t) 7 sampleBatch2'
      ∧ (model_fn (fun t => t) 7 sampleBatch2).length = sampleBatch2.length
      ∧ ((model_fn (fun t => t) 7 sampleBatch2).map
            (fun r => r.take 3)).take 1
        = ((model_fn (fun t => t) 7 sampleBatch2).map
            (fun r => r.take 3)).drop 1) :=
  ⟨rfl, rfl, rfl, fun _ => rfl, by decide, by decide,
    model_fn_half_dependence (fun t => t) 7 sampleBatch2 sampleBatch2' 1 4 1
      rfl rfl rfl (fun _ => rfl) (by decide) (by decide)⟩

/-- C2 (code bug): predict's declared input range admits aesthetic_rating
= 0 (cog.Input ge=0), but the call at lines 246-248 reaches the loader's
assertion, which rejects 0: the call errors instead of disabling fusion,
and no fusion-skipping branch exists. -/
theorem predict_aesthetic_rating_zero_errors (loadRating : ℕ → List ℝ)
    (text_emb_clip : List (List ℝ)) (aesthetic_weight : ℝ) :
    predictAestheticFusion loadRating text_emb_clip 0 aesthetic_weight
      = Except.error "rating must be in [1, 2, 3, 4, 5, 6, 7, 8, 9]" := by
  rw [predictAestheticFusion, load_aesthetic_vit_l_14_embed,
    if_neg (by decide)]
  rfl

/-- C3 counterexample: the model configuration loaded at setup is not the
same after a predict call; a call with steps = 150 rewrites
timestep_respacing from "27" to "150". -/
theorem predict_mutates_model_config :
    predict_update_config (load_finetune_config true true false false false)
        150
      ≠ load_finetune_config true true false false false := by
  decide

/-- C3 amended: a predict call rewrites exactly the timestep_respacing key
of the startup configuration to str(steps); every other configuration key
is unchanged. -/
theorem predict_update_config_only_respacing (cfg : ModelConfig)
    (steps : ℕ) :
    (predict_update_config cfg steps).timestep_respacing = toString steps
    ∧ (predict_update_config cfg steps).attention_resolutions
      = cfg.attention_resolutions
    ∧ (predict_update_config cfg steps).class_cond = cfg.class_cond
    ∧ (predict_update_config cfg steps).diffusion_steps = cfg.diffusion_steps
    ∧ (predict_update_config cfg steps).rescale_timesteps
      = cfg.rescale_timesteps
    ∧ (predict_update_config cfg steps).image_size = cfg.image_size
    ∧ (predict_update_config cfg steps).learn_sigma = cfg.learn_sigma
    ∧ (predict_update_config cfg steps).noise_schedule = cfg.noise_schedule
    ∧ (predict_update_config cfg steps).num_channels = cfg.num_channels
    ∧ (predict_update_config cfg steps).num_heads = cfg.num_heads
    ∧ (predict_update_config cfg steps).num_res_blocks = cfg.num_res_blocks
    ∧ (predict_update_config cfg steps).resblock_updown = cfg.resblock_updown
    ∧ (predict_update_config cfg steps).use_fp16 = cfg.use_fp16
    ∧ (predict_update_config cfg steps).use_scale_shift_norm
      = cfg.use_scale_shift_norm
    ∧ (predict_update_config cfg steps).clip_embed_dim = cfg.clip_embed_dim
    ∧ (predict_update_config cfg steps).image_condition = cfg.image_condition
    ∧ (predict_update_config cfg steps).super_res_condition
      = cfg.super_res_condition
    ∧ (predict_update_config cfg steps).use_kl = cfg.use_kl
    ∧ (predict_update_config cfg steps).predict_xstart = cfg.predict_xstart :=
  ⟨rfl, rfl, rfl, rfl, rfl, rfl, rfl, rfl, rfl, rfl, rfl, rfl, rfl, rfl,
    rfl, rfl, rfl, rfl, rfl⟩

/-- C7: with no seed image the init block returns no initial latent and a
skip-step count of exactly 0, whatever skip fraction was requested. -/
theorem initialization_no_seed_image {α β : Type} (encodeLatent : α → β)
    (init_skip_fraction : ℚ) (batch_size steps : ℕ) :
    (initialization encodeLatent (none : Option α) init_skip_fraction
        batch_size steps).init = none
    ∧ (initialization encodeLatent (none : Option α) init_skip_fraction
        batch_size steps).init_skip_timesteps = 0 :=
  ⟨rfl, rfl⟩

/-- C8: for every valid batch_size the grid row length is batch_size below
the threshold 6 and batch_size / 2 from 6 upward; batch_size = 8 gives 4
and batch_size = 4 gives 4. -/
theorem images_per_row_spec (batch_size : ℕ)
    (_hvalid : batch_size ∈ [1, 2, 3, 4, 6, 8]) :
    (batch_size < 6 → images_per_row batch_size = batch_size)
    ∧ (6 ≤ batch_size → images_per_row batch_size = batch_size / 2)
    ∧ images_per_row 8 = 4 ∧ images_per_row 4 = 4 := by
  refine ⟨?_, ?_, by decide, by decide⟩
  · intro h
    rw [images_per_row, if_neg (by omega)]
  · intro h
    rw [images_per_row, if_pos h]

/-- Witness for C8 at batch_size = 8. -/
theorem images_per_row_spec_witness :
    8 ∈ [1, 2, 3, 4, 6, 8]
    ∧ ((8 < 6 → images_per_row 8 = 8)
      ∧ (6 ≤ 8 → images_per_row 8 = 8 / 2)
      ∧ images_per_row 8 = 4 ∧ images_per_row 4 = 4) :=
  ⟨by decide, images_per_row_spec 8 (by decide)⟩

/-! ### Norm facts about the fusion path -/

theorem sum_sq_nonneg (v : List ℝ) : 0 ≤ (v.map (fun x => x ^ 2)).sum := by
  apply List.sum_nonneg
  intro x hx
  obtain ⟨y, _, rfl⟩ := List.mem_map.1 hx
  positivity

theorem fnormalizeEps_pos : 0 < fnormalizeEps := by
  rw [fnormalizeEps]
  norm_num

theorem l2norm_map_div (v : List ℝ) (c : ℝ) (hc : 0 < c) :
    l2norm (v.map (fun x => x / c)) = l2norm v / c := by
  rw [l2norm, l2norm, List.map_map]
  have hcomp : ((fun x => x ^ 2) ∘ fun x => x / c)
      = fun x => x ^ 2 * (c ^ 2)⁻¹ := by
    funext x
    simp only [Function.comp_apply]
    rw [div_pow, div_eq_mul_inv]
  rw [hcomp, List.sum_map_mul_right, Real.sqrt_mul (sum_sq_nonneg v),
    Real.sqrt_inv, Real.sqrt_sq hc.le, div_eq_mul_inv]

theorem l2norm_normalizeRow {v : List ℝ} (h : fnormalizeEps ≤ l2norm v) :
    l2norm (normalizeRow v) = 1 := by
  have hpos : 0 < l2norm v := lt_of_lt_of_le fnormalizeEps_pos h
  rw [normalizeRow, max_eq_left h, l2norm_map_div v _ hpos]
  exact div_self (ne_of_gt hpos)

/-- C4 counterexample: with prompt embedding [[1]], aesthetic embedding
[-1] and weight 1/2 the interpolation is the zero vector, the fused output
is the zero vector, and its L2 norm is 0, not 1. -/
theorem fuse_zero_vector_not_unit :
    average_prompt_embed_with_aesthetic_embed [[1]] [-1] (1 / 2) = [[0]]
    ∧ l2norm [(0 : ℝ)] = 0 ∧ l2norm [(0 : ℝ)] ≠ 1 := by
  have hlerp : lerpRow (1 / 2) [(1 : ℝ)] [-1] = [0] := by
    rw [lerpRow]
    norm_num
  have hnorm0 : l2norm [(0 : ℝ)] = 0 := by
    rw [l2norm]
    simp
  refine ⟨?_, hnorm0, by rw [hnorm0]; norm_num⟩
  rw [average_prompt_embed_with_aesthetic_embed, List.map_cons, List.map_nil,
    hlerp, normalizeRow, hnorm0]
  norm_num

/-- C4 amended: the fusion operation returns each interpolated row divided
by max(its L2 norm, F.normalize's eps clamp 1e-12); every output row whose
interpolated row has norm at least the clamp has unit L2 norm (the zero
interpolation instead yields the zero row). -/
theorem fuse_unit_norm_above_eps (prompt_embed : List (List ℝ))
    (aesthetic_embed : List ℝ) (aesthetic_weight : ℝ) (r : List ℝ)
    (hr : r ∈ prompt_embed.map
      (fun row => lerpRow aesthetic_weight row aesthetic_embed))
    (hnorm : fnormalizeEps ≤ l2norm r) :
    l2norm (normalizeRow r) = 1
    ∧ normalizeRow r ∈ average_prompt_embed_with_aesthetic_embed
        prompt_embed aesthetic_embed aesthetic_weight := by
  refine ⟨l2norm_normalizeRow hnorm, ?_⟩
  rw [average_prompt_embed_with_aesthetic_embed]
  obtain ⟨row, hrow, rfl⟩ := List.mem_map.1 hr
  exact List.mem_map.2 ⟨row, hrow, rfl⟩

/-- Witness for C4 (amended) at prompt [[3, 4]], aesthetic [0, 0], weight 0,
whose interpolated row [3, 4] has norm 5. -/
theorem fuse_unit_norm_above_eps_witness :
    (([3, 4] : List ℝ) ∈ List.map
      (fun row => lerpRow 0 row ([0, 0] : List ℝ)) [[3, 4]])
    ∧ fnormalizeEps ≤ l2norm [(3 : ℝ), 4]
    ∧ (l2norm (normalizeRow [(3 : ℝ), 4]) = 1
      ∧ normalizeRow [(3 : ℝ), 4] ∈ average_prompt_embed_with_aesthetic_embed
          [[3, 4]] [0, 0] 0) := by
  have hlerp : lerpRow 0 ([3, 4] : List ℝ) [0, 0] = [3, 4] := by
    rw [lerpRow]
    norm_num
  have hmem : ([3, 4] : List ℝ) ∈ List.map
      (fun row => lerpRow 0 row ([0, 0] : List ℝ)) [[3, 4]] := by
    rw [List.map_cons, List.map_nil, hlerp]
    exact List.mem_singleton.2 rfl
  have hnorm : l2norm [(3 : ℝ), 4] = 5 := by
    rw [l2norm]
    rw [show (([(3 : ℝ), 4].map (fun x => x ^ 2)).sum : ℝ) = 5 ^ 2 by
      simp; norm_num]
    exact Real.sqrt_sq (by norm_num)
  have heps : fnormalizeEps ≤ l2norm [(3 : ℝ), 4] := by
    rw [hnorm, fnormalizeEps]
    norm_num
  exact ⟨hmem, heps,
    fuse_unit_norm_above_eps [[3, 4]] [0, 0] 0 [3, 4] hmem heps⟩

/-- C9: for embeddings of identical dimensionality, fusing with weight 0
returns exactly the normalized prompt rows (the aesthetic embedding has no
effect) and fusing with weight 1 returns the normalized aesthetic embedding
for every row (the prompt has no effect). -/
theorem fuse_weight_endpoints (prompt_embed : List (List ℝ))
    (aesthetic_embed : List ℝ)
    (hdim : ∀ row ∈ prompt_embed, row.length = aesthetic_embed.length) :
    average_prompt_embed_with_aesthetic_embed prompt_embed aesthetic_embed 0
      = prompt_embed.map normalizeRow
    ∧ average_prompt_embed_with_aesthetic_embed prompt_embed aesthetic_embed 1
      = List.replicate prompt_embed.length (normalizeRow aesthetic_embed) := by
  constructor
  · rw [average_prompt_embed_with_aesthetic_embed]
    apply List.map_congr_left
    intro row hrow
    congr 1
    exact zipWith_eq_left_of_mem _ _ _ (fun a _ b => by ring)
      (le_of_eq (hdim row hrow))
  · rw [average_prompt_embed_with_aesthetic_embed]
    have hall : ∀ row ∈ prompt_embed,
        normalizeRow (lerpRow 1 row aesthetic_embed)
          = normalizeRow aesthetic_embed := by
      intro row hrow
      congr 1
      exact zipWith_eq_right_of_mem _ _ _ (fun b _ a => by ring)
        (le_of_eq (hdim row hrow).symm)
    rw [List.map_congr_left hall, List.map_const']

/-- Witness for C9 at prompt [[1, 2]] and aesthetic [3, 4]. -/
theorem fuse_weight_endpoints_witness :
    (∀ row ∈ ([[1, 2]] : List (List ℝ)), row.length
      = ([3, 4] : List ℝ).length)
    ∧ (average_prompt_embed_with_aesthetic_embed [[1, 2]] [3, 4] 0
        = ([[1, 2]] : List (List ℝ)).map normalizeRow
      ∧ average_prompt_embed_with_aesthetic_embed [[1, 2]] [3, 4] 1
        = List.replicate ([[1, 2]] : List (List ℝ)).length
            (normalizeRow [3, 4])) := by
  have hdim : ∀ row ∈ ([[1, 2]] : List (List ℝ)), row.length
      = ([3, 4] : List ℝ).length := by
    intro row hrow
    rw [List.mem_singleton.1 hrow]
    rfl
  exact ⟨hdim, fuse_weight_endpoints [[1, 2]] [3, 4] hdim⟩

/-- C5: for every batch_size the assembled conditioning tensors each have
batch dimension 2 * batch_size, with the first batch_size rows the
prompt-side (conditional) rows and the remaining batch_size rows the
negative-side (unconditional) rows; the zero image-conditioning placeholder
likewise has batch dimension 2 * batch_size. -/
theorem conditioning_batch_layout {α : Type} (bertEncode : String → α)
    (clipEncode : String → List ℝ) (aesthetic_embed : List ℝ)
    (aesthetic_weight : ℝ) (prompt negative : String)
    (batch_size height width : ℕ) :
    (contextTensor bertEncode prompt negative batch_size).length
      = 2 * batch_size
    ∧ (contextTensor bertEncode prompt negative batch_size).take batch_size
      = encodeBatch bertEncode prompt batch_size
    ∧ (contextTensor bertEncode prompt negative batch_size).drop batch_size
      = encodeBatch bertEncode negative batch_size
    ∧ (clipEmbedTensor clipEncode aesthetic_embed aesthetic_weight prompt
        negative batch_size).length = 2 * batch_size
    ∧ (clipEmbedTensor clipEncode aesthetic_embed aesthetic_weight prompt
        negative batch_size).take batch_size
      = average_prompt_embed_with_aesthetic_embed
          (encodeBatch clipEncode prompt batch_size) aesthetic_embed
          aesthetic_weight
    ∧ (clipEmbedTensor clipEncode aesthetic_embed aesthetic_weight prompt
        negative batch_size).drop batch_size
      = encodeBatch clipEncode negative batch_size
    ∧ (image_embed batch_size height width).length = 2 * batch_size := by
  have hlen : ∀ {β : Type} (e : String → β) (s : String),
      (encodeBatch e s batch_size).length = batch_size := by
    intro β e s
    rw [encodeBatch, List.length_map, List.length_replicate]
  have hflen : (average_prompt_embed_with_aesthetic_embed
      (encodeBatch clipEncode prompt batch_size) aesthetic_embed
      aesthetic_weight).length = batch_size := by
    rw [average_prompt_embed_with_aesthetic_embed, List.length_map, hlen]
  refine ⟨?_, ?_, ?_, ?_, ?_, ?_, ?_⟩
  · rw [contextTensor, List.length_append, hlen, hlen]
    omega
  · rw [contextTensor]
    exact List.take_left' (hlen _ _)
  · rw [contextTensor]
    exact List.drop_left' (hlen _ _)
  · rw [clipEmbedTensor, List.length_append, hflen, hlen]
    omega
  · rw [clipEmbedTensor]
    exact List.take_left' hflen
  · rw [clipEmbedTensor]
    exact List.drop_left' hflen
  · rw [image_embed, List.length_replicate]
    omega

/-- C6: with a seed image present, a requested skip fraction of 0 is
replaced by the policy default 1/2 (the call still succeeds), and the
skip-step count always equals the floor of total respaced steps times the
effective skip fraction. -/
theorem initialization_seed_image_skip {α β : Type} (encodeLatent : α → β)
    (img : α) (init_skip_fraction : ℚ) (batch_size steps : ℕ)
    (hge : 0 ≤ init_skip_fraction) :
    (init_skip_fraction = 0 →
      (initialization encodeLatent (some img) init_skip_fraction batch_size
        steps).init_skip_fraction = 1 / 2)
    ∧ (initialization encodeLatent (some img) init_skip_fraction batch_size
        steps).init_skip_timesteps
      = ⌊(steps : ℚ) * (initialization encodeLatent (some img)
          init_skip_fraction batch_size steps).init_skip_fraction⌋ := by
  constructor
  · intro h0
    simp [initialization, h0]
  · by_cases h0 : init_skip_fraction = 0
    · simp only [initialization, h0, if_pos rfl, pyInt]
      rw [if_pos (by positivity)]
    · simp only [initialization, if_neg h0, pyInt]
      rw [if_pos (mul_nonneg (by positivity) hge)]

/-- Witness for C6 with a requested skip fraction of 0, batch_size 4 and
27 respaced steps. -/
theorem initialization_seed_image_skip_witness :
    (0 : ℚ) ≤ 0
    ∧ (((0 : ℚ) = 0 →
        (initialization (fun n : ℕ => n) (some 0) 0 4 27).init_skip_fraction
          = 1 / 2)
      ∧ (initialization (fun n : ℕ => n) (some 0) 0 4
          27).init_skip_timesteps
        = ⌊((27 : ℕ) : ℚ) * (initialization (fun n : ℕ => n) (some 0) 0 4
            27).init_skip_fraction⌋) :=
  ⟨le_refl 0,
    initialization_seed_image_skip (fun n : ℕ => n) 0 0 4 27 (le_refl 0)⟩

end CogPredict
